import Mathlib

/-!
Shallow embedding of the AI Debate Arena core (src/src/App.tsx):
the heuristic scorer (scoreClarity, scoreDepth, scoreEvidence,
scoreRelevance, scorePersuasiveness, calculatePoints), the winner rule
(calculateWinner), stance assignment (assignStances), the start
transition (startDebate), one debate round (runDebateRound) and the
self-rescheduling loop (debateLoop), together with a small step
relation capturing the timer effect and the UI-guarded state updates.
-/

namespace DebateArena

/-! ### String machinery

JavaScript string operations used by the scorer, modelled over
`List Char`.  Case-insensitive regex matching is modelled by
lowercasing both sides (all patterns are lowercase ASCII). -/

/-- Lowercase every character, modelling `String.prototype.toLowerCase`. -/
def toLowerList (s : List Char) : List Char :=
  s.map Char.toLower

/-- `startsWith pat s` holds when `s` begins with `pat`. -/
def startsWith : List Char → List Char → Bool
  | [], _ => true
  | _ :: _, [] => false
  | p :: ps, c :: cs => p = c && startsWith ps cs

/-- `containsSub pat s` models `s.includes(pat)`: `pat` occurs as a
contiguous substring of `s` (the empty pattern occurs everywhere). -/
def containsSub (pat : List Char) : List Char → Bool
  | [] => startsWith pat []
  | c :: rest => startsWith pat (c :: rest) || containsSub pat rest

/-- One pass of global regex alternation matching, fuelled by the input
length: at each position try the alternatives in order; on a match
advance past it, otherwise advance one character.  This models
`message.match(/p1|p2|.../g).length` for the non-empty literal
alternatives used by the scorer. -/
def scanCount (pats : List (List Char)) : Nat → List Char → Nat
  | 0, _ => 0
  | _ + 1, [] => 0
  | fuel + 1, c :: rest =>
    match pats.find? (fun p => startsWith p (c :: rest)) with
    | some p => 1 + scanCount pats fuel (rest.drop (p.length - 1))
    | none => scanCount pats fuel rest

/-- Number of non-overlapping matches of the alternation `pats` in `s`. -/
def countMatches (pats : List (List Char)) (s : List Char) : Nat :=
  scanCount pats s.length s

/-- `splitBy isSep acc s` splits `s` at every separator character,
keeping empty pieces, modelling `String.prototype.split` with a
single-character separator class; `acc` holds the current piece
reversed. -/
def splitBy (isSep : Char → Bool) (acc : List Char) : List Char → List (List Char)
  | [] => [acc.reverse]
  | c :: rest =>
    if isSep c then acc.reverse :: splitBy isSep [] rest
    else splitBy isSep (c :: acc) rest

/-- ASCII word character, the `\w` class: letters, digits, underscore. -/
def isWordChar (c : Char) : Bool :=
  ('a' ≤ c && c ≤ 'z') || ('A' ≤ c && c ≤ 'Z') || ('0' ≤ c && c ≤ '9') || c = '_'

/-- Collect the maximal runs of word characters in `s`; `acc` holds the
current run reversed. -/
def wordRuns (acc : List Char) : List Char → List (List Char)
  | [] => if acc.isEmpty then [] else [acc.reverse]
  | c :: rest =>
    if isWordChar c then
      wordRuns (c :: acc) rest
    else if acc.isEmpty then
      wordRuns [] rest
    else
      acc.reverse :: wordRuns [] rest

/-- All matches of the word-boundary regex `\b\w{5,}\b` in `s`: the
maximal word-character runs of length at least 5, in order, with
multiplicity. -/
def words5 (s : List Char) : List (List Char) :=
  (wordRuns [] s).filter (fun w => 5 ≤ w.length)

/-! ### Data model (interfaces DebateMessage and DebateState) -/

/-- The two debating agents (`"gemini" | "groq"`). -/
inductive Agent where
  | gemini
  | groq
deriving DecidableEq, Repr

/-- Message kind (`"ai" | "user"`). -/
inductive MsgType where
  | ai
  | user
deriving DecidableEq, Repr

/-- A stance (`"favor" | "oppose"`). -/
inductive Stance where
  | favor
  | oppose
deriving DecidableEq, Repr

/-- Verdict values of `calculateWinner` (`"gemini" | "groq" | "tie"`). -/
inductive Winner where
  | gemini
  | groq
  | tie
deriving DecidableEq, Repr

/-- One debate message (interface `DebateMessage`). -/
structure DebateMessage where
  agent : Agent
  message : String
  type : MsgType
  timestamp : String
deriving DecidableEq, Repr

/-- The nullable stance record held in the session state. -/
structure StanceRec where
  gemini : Option Stance
  groq : Option Stance
deriving DecidableEq, Repr

/-- The session state (interface `DebateState`).  `winner = none` models
the `null` "Unset" value; `duration` is in minutes, `timeLeft` in
seconds. -/
structure DebateState where
  topic : String
  duration : Nat
  messages : List DebateMessage
  isDebating : Bool
  winner : Option Winner
  geminiPoints : Nat
  groqPoints : Nat
  timeLeft : Nat
  debateRound : Nat
  stance : StanceRec
deriving DecidableEq, Repr

/-- The initial `useState` value. -/
def initialState : DebateState :=
  { topic := ""
    duration := 2
    messages := []
    isDebating := false
    winner := none
    geminiPoints := 0
    groqPoints := 0
    timeLeft := 2 * 60
    debateRound := 0
    stance := { gemini := none, groq := none } }

/-! ### Scorer -/

/-- Alternatives of the clarity regex, in source order. -/
def clarityIndicators : List String :=
  ["first", "second", "third", "finally", "in conclusion", "therefore",
   "thus", "as a result", "however", "on the other hand", "although"]

/-- Alternatives of the depth regex, in source order. -/
def depthIndicators : List String :=
  ["autonomy", "moral", "philosophy", "belief", "value", "nuance",
   "complex", "context", "principle", "assumption", "framework", "diversity"]

/-- Alternatives of the evidence regex, in source order. -/
def evidenceIndicators : List String :=
  ["research shows", "studies indicate", "according to", "evidence suggests",
   "data from", "statistically", "survey", "report", "study"]

/-- Alternatives of the example regex, in source order. -/
def exampleIndicators : List String :=
  ["for example", "such as", "consider", "case study", "instance",
   "take the case of"]

/-- Criterion 1: Clarity of Argument. -/
def scoreClarity (message : String) : Nat :=
  let count := countMatches (clarityIndicators.map String.toList)
    (toLowerList message.toList)
  min (count * 2) 10

/-- Criterion 2: Depth of Reasoning. -/
def scoreDepth (message : String) : Nat :=
  let count := countMatches (depthIndicators.map String.toList)
    (toLowerList message.toList)
  min (count * 2) 10

/-- Criterion 3: Use of Evidence and Examples. -/
def scoreEvidence (message : String) : Nat :=
  let evidenceCount := countMatches (evidenceIndicators.map String.toList)
    (toLowerList message.toList)
  let exampleCount := countMatches (exampleIndicators.map String.toList)
    (toLowerList message.toList)
  min (evidenceCount * 3 + exampleCount * 2) 10

/-- Criterion 4: Relevance and Realism.  The topic is lowercased and
split on the single space character (`topic.toLowerCase().split(" ")`);
tokens longer than 3 characters that occur in the lowercased message
are counted. -/
def scoreRelevance (message : String) (topic : String) : Nat :=
  let topicKeywords := splitBy (fun c => c = ' ') [] (toLowerList topic.toList)
  let lowerMessage := toLowerList message.toList
  let relevanceCount := (topicKeywords.filter
    (fun word => decide (3 < word.length) && containsSub word lowerMessage)).length
  min (relevanceCount * 2) 10

/-- Criterion 5: Persuasiveness / Impact.  Keywords of length ≥ 5 are
extracted from the most recent opposing message and counted (with
multiplicity) when they occur in the current message. -/
def scorePersuasiveness (message : String) (allMessages : List DebateMessage)
    (isGroq : Bool) : Nat :=
  let agent := if isGroq then Agent.groq else Agent.gemini
  let lowerMessage := toLowerList message.toList
  let opponentMessages := allMessages.filter (fun msg => msg.agent ≠ agent)
  match opponentMessages.getLast? with
  | none => 5
  | some lastOpp =>
    let rebuttalKeywords := words5 (toLowerList lastOpp.message.toList)
    let rebuttals := (rebuttalKeywords.filter
      (fun word => containsSub word lowerMessage)).length
    if 5 ≤ rebuttals then 10
    else if 3 ≤ rebuttals then 7
    else if 1 ≤ rebuttals then 5
    else 3

/-- Final total scorer (max 50 points). -/
def calculatePoints (message : String) (allMessages : List DebateMessage)
    (isGroq : Bool) (topic : String) : Nat :=
  let clarity := scoreClarity message
  let depth := scoreDepth message
  let evidence := scoreEvidence message
  let relevance := scoreRelevance message topic
  let persuasiveness := scorePersuasiveness message allMessages isGroq
  min (clarity + depth + evidence + relevance + persuasiveness) 50

/-- Winner calculator. -/
def calculateWinner (geminiPoints groqPoints : Nat) : Winner :=
  if groqPoints < geminiPoints then Winner.gemini
  else if geminiPoints < groqPoints then Winner.groq
  else Winner.tie

/-! ### Collaborator calls

The external provider calls are opaque; only the result handling in
`getGeminiChatCompletion` / `getGroqChatCompletion` is code of this
repository.  A call either succeeds with some text or fails (the
JavaScript `catch` branch); a falsy (empty) success text is replaced by
the "No response" fallback (`response.text || fallback`). -/

/-- Outcome of one external generate-argument call. -/
inductive CallResult where
  | success (text : String)
  | failure
deriving DecidableEq, Repr

/-- Result handling of the Gemini collaborator call: on failure the
error is caught and a fixed error text is returned. -/
def getGeminiChatCompletion : CallResult → String
  | CallResult.success t => if t = "" then "No response from Gemini" else t
  | CallResult.failure => "Error fetching response from Gemini."

/-- Result handling of the Groq collaborator call. -/
def getGroqChatCompletion : CallResult → String
  | CallResult.success t => if t = "" then "No response from Groq" else t
  | CallResult.failure => "Error fetching response from Groq."

/-! ### Stance assignment and start transition -/

/-- Stance assignment; `favorFirst` is the outcome of the coin flip
`Math.random() > 0.5`.  First component is Gemini's stance, second is
Groq's. -/
def assignStances (favorFirst : Bool) : Stance × Stance :=
  (if favorFirst then Stance.favor else Stance.oppose,
   if favorFirst then Stance.oppose else Stance.favor)

/-- The `startDebate` transition: a no-op when the topic is empty
(falsy) or a debate is already running; otherwise resets the session
and activates it. -/
def startDebate (s : DebateState) (coin : Bool) : DebateState :=
  if s.topic = "" ∨ s.isDebating = true then s
  else
    { s with
      isDebating := true
      messages := []
      winner := none
      geminiPoints := 0
      groqPoints := 0
      timeLeft := s.duration * 60
      debateRound := 0
      stance := { gemini := some (assignStances coin).1
                  groq := some (assignStances coin).2 } }

/-! ### One debate round

`runDebateRound` performs Gemini's turn, waits, then performs Groq's
turn.  Each turn appends a message and adds its points; Groq's points
are computed against the local context `currentMessages` (the messages
at round start plus Gemini's new message).  `runDebateRoundMid` exposes
the inter-turn delay as an arbitrary state interference `mid` (timer
ticks, deactivation) applied between the two committed turns; the code
performs no continuation check at that point. -/

/-- Gemini's half of a round: build the response from the call result,
score it against the current history, append it and add the points. -/
def geminiHalf (s : DebateState) (gr : CallResult) (ts : String) : DebateState :=
  let geminiResponse := getGeminiChatCompletion gr
  let geminiPoints := calculatePoints geminiResponse s.messages false s.topic
  let geminiMessage : DebateMessage :=
    { agent := Agent.gemini, message := geminiResponse
      type := MsgType.ai, timestamp := ts }
  { s with
    messages := s.messages ++ [geminiMessage]
    geminiPoints := s.geminiPoints + geminiPoints
    debateRound := s.debateRound + 1 }

/-- Groq's half of a round: the score context `ctx` and the `topic` are
the round's local values, while the message and points are committed
onto the then-current state `s`. -/
def groqHalf (s : DebateState) (ctx : List DebateMessage) (topic : String)
    (qr : CallResult) (ts : String) : DebateState :=
  let groqResponse := getGroqChatCompletion qr
  let groqPoints := calculatePoints groqResponse ctx true topic
  let groqMessage : DebateMessage :=
    { agent := Agent.groq, message := groqResponse
      type := MsgType.ai, timestamp := ts }
  { s with
    messages := s.messages ++ [groqMessage]
    groqPoints := s.groqPoints + groqPoints
    debateRound := s.debateRound + 1 }

/-- One round with interference `mid` applied during the 3-second
inter-turn delay.  Note the absence of any active/time check between
the two halves. -/
def runDebateRoundMid (s : DebateState) (gr qr : CallResult)
    (ts1 ts2 : String) (mid : DebateState → DebateState) : DebateState :=
  let s1 := geminiHalf s gr ts1
  groqHalf (mid s1) s1.messages s.topic qr ts2

/-- One undisturbed round (no interleaved state change). -/
def runDebateRound (s : DebateState) (gr qr : CallResult)
    (ts1 ts2 : String) : DebateState :=
  runDebateRoundMid s gr qr ts1 ts2 id

/-! ### The debate loop -/

/-- The inputs of one scheduled round: the two call results, the two
timestamps, and the state interference during the inter-turn (`mid`)
and inter-round (`post`) delays. -/
structure RoundInput where
  gr : CallResult
  qr : CallResult
  ts1 : String
  ts2 : String
  mid : DebateState → DebateState
  post : DebateState → DebateState

/-- The self-rescheduling `debateLoop`: return immediately unless
debating with time left; run a round; after the inter-round delay
(modelled by `post`) re-check the condition before recursing. -/
def debateLoop (s : DebateState) : List RoundInput → DebateState
  | [] => s
  | r :: rest =>
    if s.isDebating = true ∧ 0 < s.timeLeft then
      let s' := r.post (runDebateRoundMid s r.gr r.qr r.ts1 r.ts2 r.mid)
      if s'.isDebating = true ∧ 0 < s'.timeLeft then debateLoop s' rest else s'
    else s

/-! ### Timer effect and step relation -/

/-- One interval tick: decrement `timeLeft` (the interval exists only
while debating with time left). -/
def tick (s : DebateState) : DebateState :=
  { s with timeLeft := s.timeLeft - 1 }

/-- The `else if (state.timeLeft === 0)` branch of the timer effect:
deactivate and set the winner from the totals at this instant, in one
state update. -/
def timerExpire (s : DebateState) : DebateState :=
  { s with
    isDebating := false
    winner := some (calculateWinner s.geminiPoints s.groqPoints) }

/-- The atomic state updates the component can perform, with the guards
under which the code performs them: ticks only while the interval is
installed, expiry only at `timeLeft = 0`, topic/duration edits only
while the corresponding inputs are enabled (not debating), and the
duration-reset effect only while not debating. -/
inductive Step : DebateState → DebateState → Prop
  | start (s : DebateState) (coin : Bool) : Step s (startDebate s coin)
  | tick (s : DebateState) (h : s.isDebating = true ∧ 0 < s.timeLeft) :
      Step s (tick s)
  | expire (s : DebateState) (h : s.timeLeft = 0) : Step s (timerExpire s)
  | geminiTurn (s : DebateState) (gr : CallResult) (ts : String) :
      Step s (geminiHalf s gr ts)
  | groqTurn (s : DebateState) (ctx : List DebateMessage) (topic : String)
      (qr : CallResult) (ts : String) : Step s (groqHalf s ctx topic qr ts)
  | setTopic (s : DebateState) (t : String) (h : s.isDebating = false) :
      Step s { s with topic := t }
  | setDuration (s : DebateState) (d : Nat) (h : s.isDebating = false) :
      Step s { s with duration := d }
  | resetTime (s : DebateState) (h : s.isDebating = false) :
      Step s { s with timeLeft := s.duration * 60 }

/-- States reachable from the initial state by the step relation. -/
inductive Reachable : DebateState → Prop
  | init : Reachable initialState
  | step {s s' : DebateState} : Reachable s → Step s s' → Reachable s'

/-! ### Spec-side comparison definitions and concrete sample data -/

/-- The most recent message in `history` from a participant other than
`owner` (the claims' "most recent opposing message"). -/
def lastOpposing (owner : Agent) (history : List DebateMessage) : Option DebateMessage :=
  (history.filter (fun msg => msg.agent ≠ owner)).getLast?

/-- Number of length-≥-5 words of the opposing text (with multiplicity,
as extracted by the word-boundary regex) that occur case-insensitively
in the current message. -/
def rebuttalCount (message opponentText : String) : Nat :=
  (words5 (toLowerList opponentText.toList)).countP
    (fun word => containsSub word (toLowerList message.toList))

/-- Whitespace character as usually understood by "tokenize on
whitespace" (space, tab, newline, carriage return). -/
def isSpaceChar (c : Char) : Bool :=
  c = ' ' || c = '\t' || c = '\n' || c = '\r'

/-- The relevance scorer as the claim words it: topic tokens are
delimited by whitespace (not only by the space character). -/
def scoreRelevanceWhitespace (message : String) (topic : String) : Nat :=
  let topicKeywords := splitBy isSpaceChar [] (toLowerList topic.toList)
  let lowerMessage := toLowerList message.toList
  let relevanceCount := (topicKeywords.filter
    (fun word => decide (3 < word.length) && containsSub word lowerMessage)).length
  min (relevanceCount * 2) 10

/-- Number of space-delimited topic tokens longer than 3 characters
that occur case-insensitively in the message. -/
def relevanceMatchCount (message topic : String) : Nat :=
  (splitBy (fun c => c = ' ') [] (toLowerList topic.toList)).countP
    (fun word => decide (3 < word.length) && containsSub word (toLowerList message.toList))

/-- An active session used to exercise the round logic. -/
def activeState : DebateState :=
  { initialState with topic := "ai", isDebating := true, timeLeft := 60 }

/-- A second active session used to exercise mid-round deactivation. -/
def activeState30 : DebateState :=
  { initialState with topic := "ai", isDebating := true, timeLeft := 30 }

/-- Interference during the inter-turn delay: the timer ticks down to
zero and the expiry effect deactivates the session. -/
def midDeactivate (s : DebateState) : DebateState :=
  timerExpire { s with timeLeft := 0 }

/-- A sample opposing message used to exercise the persuasiveness rule. -/
def wonderMsg : DebateMessage :=
  { agent := Agent.groq, message := "wonderful amazing"
    type := MsgType.ai, timestamp := "t" }

/-- A round input with failing collaborator calls and no interference. -/
def failRound : RoundInput :=
  { gr := CallResult.failure, qr := CallResult.failure
    ts1 := "", ts2 := "", mid := id, post := id }

/-- An active session with expired timer and frozen totals 10 : 7. -/
def expireDemo : DebateState :=
  { initialState with isDebating := true, timeLeft := 0
                      geminiPoints := 10, groqPoints := 7 }

/-! ### Helper lemmas -/

/-- The persuasiveness sub-score only takes the values 3, 5, 7, 10. -/
theorem persuasiveness_mem (message : String) (allMessages : List DebateMessage)
    (isGroq : Bool) :
    scorePersuasiveness message allMessages isGroq = 3 ∨
    scorePersuasiveness message allMessages isGroq = 5 ∨
    scorePersuasiveness message allMessages isGroq = 7 ∨
    scorePersuasiveness message allMessages isGroq = 10 := by
  simp only [scorePersuasiveness]
  split
  · simp
  · split_ifs <;> simp

/-- Every total score is at least 3, because the persuasiveness
sub-score is. -/
theorem three_le_calculatePoints (message : String) (allMessages : List DebateMessage)
    (isGroq : Bool) (topic : String) :
    3 ≤ calculatePoints message allMessages isGroq topic := by
  have h := persuasiveness_mem message allMessages isGroq
  simp only [calculatePoints]
  refine Nat.le_min.mpr ⟨?_, by norm_num⟩
  rcases h with h | h | h | h <;> omega

/-! ### Claim theorems -/

/-- C1: for every message text, history, topic and owning participant,
the total returned by `calculatePoints` is an integer in [0, 50], and
each of the five sub-scores (clarity, depth, evidence, relevance,
persuasiveness) is independently in [0, 10]. -/
theorem scorer_total_and_subscores_bounded
    (message : String) (allMessages : List DebateMessage) (isGroq : Bool)
    (topic : String) :
    (0 ≤ calculatePoints message allMessages isGroq topic ∧
      calculatePoints message allMessages isGroq topic ≤ 50) ∧
    scoreClarity message ≤ 10 ∧
    scoreDepth message ≤ 10 ∧
    scoreEvidence message ≤ 10 ∧
    scoreRelevance message topic ≤ 10 ∧
    scorePersuasiveness message allMessages isGroq ≤ 10 := by
  refine ⟨⟨Nat.zero_le _, Nat.min_le_right _ _⟩, Nat.min_le_right _ _,
    Nat.min_le_right _ _, Nat.min_le_right _ _, Nat.min_le_right _ _, ?_⟩
  rcases persuasiveness_mem message allMessages isGroq with h | h | h | h <;> omega

/-- C10: the total returned by `calculatePoints` is at least 3 (never
0): the persuasiveness sub-score is always one of 3, 5, 7, 10, so every
committed turn strictly increases its owner's running total. -/
theorem calculatePoints_at_least_three
    (message : String) (allMessages : List DebateMessage) (isGroq : Bool)
    (topic : String) (s : DebateState) (gr qr : CallResult)
    (ctx : List DebateMessage) (ts : String) :
    3 ≤ calculatePoints message allMessages isGroq topic ∧
    (scorePersuasiveness message allMessages isGroq = 3 ∨
      scorePersuasiveness message allMessages isGroq = 5 ∨
      scorePersuasiveness message allMessages isGroq = 7 ∨
      scorePersuasiveness message allMessages isGroq = 10) ∧
    s.geminiPoints < (geminiHalf s gr ts).geminiPoints ∧
    s.groqPoints < (groqHalf s ctx topic qr ts).groqPoints := by
  refine ⟨three_le_calculatePoints message allMessages isGroq topic,
    persuasiveness_mem message allMessages isGroq, ?_, ?_⟩
  · have h := three_le_calculatePoints (getGeminiChatCompletion gr) s.messages false s.topic
    simp only [geminiHalf]
    omega
  · have h := three_le_calculatePoints (getGroqChatCompletion qr) ctx true topic
    simp only [groqHalf]
    omega

/-- C3: `calculateWinner` returns the participant with the strictly
greater total, and Tie exactly when the totals are equal; in particular
10 : 7 gives gemini, 7 : 7 gives tie and 3 : 9 gives groq. -/
theorem calculateWinner_strict_and_tie (g q : Nat) :
    (q < g → calculateWinner g q = Winner.gemini) ∧
    (g < q → calculateWinner g q = Winner.groq) ∧
    (calculateWinner g q = Winner.tie ↔ g = q) ∧
    calculateWinner 10 7 = Winner.gemini ∧
    calculateWinner 7 7 = Winner.tie ∧
    calculateWinner 3 9 = Winner.groq := by
  refine ⟨?_, ?_, ?_, by decide, by decide, by decide⟩
  · intro h
    simp only [calculateWinner]
    rw [if_pos h]
  · intro h
    simp only [calculateWinner]
    rw [if_neg (by omega), if_pos h]
  · simp only [calculateWinner]
    split_ifs with h1 h2 <;> simp <;> omega

/-- C3 witness: the theorem applied at totals 10 : 7. -/
theorem calculateWinner_strict_and_tie_witness :
    7 < 10 ∧ calculateWinner 10 7 = Winner.gemini :=
  ⟨by decide, (calculateWinner_strict_and_tie 10 7).1 (by decide)⟩

/-- C5: for every outcome of the coin flip, `assignStances` assigns the
two participants complementary stances: exactly one of Gemini and Groq
gets Favor and the other Oppose. -/
theorem assignStances_complementary (favorFirst : Bool) :
    (assignStances favorFirst).1 ≠ (assignStances favorFirst).2 ∧
    (((assignStances favorFirst).1 = Stance.favor ∧
        (assignStances favorFirst).2 = Stance.oppose) ∨
      ((assignStances favorFirst).1 = Stance.oppose ∧
        (assignStances favorFirst).2 = Stance.favor)) := by
  cases favorFirst <;> decide

/-- C6: `startDebate` with an empty topic or while already debating is
a no-op leaving the whole session state unchanged; in particular
starting from the initial state (whose topic is empty) leaves
`isDebating` false and `messages` empty. -/
theorem startDebate_invalid_noop (s : DebateState) (coin : Bool) :
    (s.topic = "" ∨ s.isDebating = true → startDebate s coin = s) ∧
    (startDebate initialState coin).isDebating = false ∧
    (startDebate initialState coin).messages = [] := by
  have hinit : initialState.topic = "" ∨ initialState.isDebating = true := Or.inl rfl
  refine ⟨fun h => ?_, ?_, ?_⟩
  · simp only [startDebate]
    rw [if_pos h]
  · simp only [startDebate]
    rw [if_pos hinit]
    rfl
  · simp only [startDebate]
    rw [if_pos hinit]
    rfl

/-- C6 witness: the theorem applied to the initial state, whose topic
is the empty string. -/
theorem startDebate_invalid_noop_witness :
    (initialState.topic = "" ∨ initialState.isDebating = true) ∧
    startDebate initialState true = initialState :=
  ⟨Or.inl rfl, (startDebate_invalid_noop initialState true).1 (Or.inl rfl)⟩

/-- C2: the persuasiveness sub-score is exactly 5 when the history
contains no message from the opposing participant; otherwise, with n
the number of length-≥-5 words of the most recent opposing message
that occur case-insensitively in the current message, it is 10 when
5 ≤ n, 7 when 3 ≤ n, 5 when 1 ≤ n, and 3 when n = 0. -/
theorem persuasiveness_rebuttal_rule
    (message : String) (allMessages : List DebateMessage) (isGroq : Bool) :
    ((∀ msg ∈ allMessages, msg.agent = (if isGroq then Agent.groq else Agent.gemini)) →
      scorePersuasiveness message allMessages isGroq = 5) ∧
    ∀ lastOpp : DebateMessage,
      lastOpposing (if isGroq then Agent.groq else Agent.gemini) allMessages = some lastOpp →
      scorePersuasiveness message allMessages isGroq =
        (if 5 ≤ rebuttalCount message lastOpp.message then 10
         else if 3 ≤ rebuttalCount message lastOpp.message then 7
         else if 1 ≤ rebuttalCount message lastOpp.message then 5
         else 3) := by
  constructor
  · intro h
    have hfilter : allMessages.filter
        (fun msg => msg.agent ≠ (if isGroq then Agent.groq else Agent.gemini)) = [] := by
      rw [List.filter_eq_nil_iff]
      intro a ha
      simp [h a ha]
    simp only [scorePersuasiveness]
    rw [hfilter]
    rfl
  · intro lastOpp h
    unfold lastOpposing at h
    simp only [scorePersuasiveness]
    rw [h]
    simp only [rebuttalCount, List.countP_eq_length_filter]

/-- C2 witness: the theorem applied to a history holding one opposing
message with rebuttal count 1. -/
theorem persuasiveness_rebuttal_rule_witness :
    lastOpposing Agent.gemini [wonderMsg] = some wonderMsg ∧
    scorePersuasiveness "wonderful indeed" [wonderMsg] false = 5 := by
  have h := (persuasiveness_rebuttal_rule "wonderful indeed" [wonderMsg] false).2
    wonderMsg (by decide)
  exact ⟨by decide, by rw [h]; decide⟩

/-- C4 counterexample: the claim's "whitespace-delimited" tokenization
disagrees with the code on a tab-separated topic.  On topic
"aaaa\tbbbb" and message "aaaa bbbb", whitespace tokenization yields
matchCount 2 and hence min(2 × 2, 10) = 4, but the code (which splits
on the space character only) scores 0. -/
theorem scoreRelevance_whitespace_counterexample :
    scoreRelevance "aaaa bbbb" "aaaa\tbbbb" = 0 ∧
    scoreRelevanceWhitespace "aaaa bbbb" "aaaa\tbbbb" = 4 := by
  decide

/-- C4 amended: the relevance sub-score equals min(2 × matchCount, 10)
where matchCount counts the space-delimited (split on the single space
character, not on general whitespace) topic tokens longer than 3
characters occurring case-insensitively in the message; in particular
it is 0 when matchCount is 0. -/
theorem scoreRelevance_space_tokens (message : String) (topic : String) :
    scoreRelevance message topic = min (relevanceMatchCount message topic * 2) 10 ∧
    (relevanceMatchCount message topic = 0 → scoreRelevance message topic = 0) := by
  have heq : scoreRelevance message topic = min (relevanceMatchCount message topic * 2) 10 := by
    simp only [scoreRelevance, relevanceMatchCount, List.countP_eq_length_filter]
  refine ⟨heq, fun h => ?_⟩
  rw [heq, h]
  simp

/-- C4 witness: the amended theorem applied to a topic with no token
longer than 3 characters. -/
theorem scoreRelevance_space_tokens_witness :
    relevanceMatchCount "nothing here" "ab cd" = 0 ∧
    scoreRelevance "nothing here" "ab cd" = 0 :=
  ⟨by decide, (scoreRelevance_space_tokens "nothing here" "ab cd").2 (by decide)⟩

/-- C7 counterexample: on a failed Gemini collaborator call the claim
predicts no appended message and no score change, but the code appends
the caught-error text as a message and adds its score: from an active
session with no messages, a round with both calls failing commits two
messages and raises Gemini's total from 0 to 5. -/
theorem collaborator_failure_counterexample :
    activeState.messages.length = 0 ∧
    activeState.geminiPoints = 0 ∧
    (runDebateRound activeState CallResult.failure CallResult.failure "t1" "t2").messages.length = 2 ∧
    (runDebateRound activeState CallResult.failure CallResult.failure "t1" "t2").geminiPoints = 5 := by
  decide

/-- C7 amended: a failed collaborator call is caught inside the call
wrapper, which returns a fixed error text; that text is appended as a
regular message and scored (adding at least 3 points to its owner), so
messages and scores do change for the failed turn; the active flag,
timer and winner are untouched, so the loop schedules the next round
normally. -/
theorem collaborator_failure_appends_error_message
    (s : DebateState) (qr : CallResult) (ts1 ts2 : String) :
    ((runDebateRound s CallResult.failure qr ts1 ts2).messages.length =
      s.messages.length + 2) ∧
    (runDebateRound s CallResult.failure qr ts1 ts2).isDebating = s.isDebating ∧
    (runDebateRound s CallResult.failure qr ts1 ts2).timeLeft = s.timeLeft ∧
    (runDebateRound s CallResult.failure qr ts1 ts2).winner = s.winner ∧
    ((runDebateRound s CallResult.failure qr ts1 ts2).geminiPoints =
      s.geminiPoints +
        calculatePoints "Error fetching response from Gemini." s.messages false s.topic) ∧
    3 ≤ calculatePoints "Error fetching response from Gemini." s.messages false s.topic ∧
    s.groqPoints < (runDebateRound s CallResult.failure qr ts1 ts2).groqPoints := by
  refine ⟨?_, rfl, rfl, rfl, rfl,
    three_le_calculatePoints "Error fetching response from Gemini." s.messages false s.topic, ?_⟩
  · simp only [runDebateRound, runDebateRoundMid, geminiHalf, groqHalf, id]
    simp
  · have h := three_le_calculatePoints (getGroqChatCompletion qr)
      (geminiHalf s CallResult.failure ts1).messages true s.topic
    simp only [runDebateRound, runDebateRoundMid, geminiHalf, groqHalf, id]
    simp only [geminiHalf] at h
    omega

/-- C8 counterexample: the loop does not re-check the continuation
condition before the second participant's turn of a round.  From an
active session, if deactivation (timer reaches 0 and the expiry effect
runs) happens during the inter-turn delay, the session is inactive with
a winner set, yet the round still appends Groq's message afterwards. -/
theorem mid_round_no_recheck_counterexample :
    (midDeactivate (geminiHalf activeState30 (CallResult.success "hello there") "t1")).isDebating = false ∧
    (midDeactivate (geminiHalf activeState30 (CallResult.success "hello there") "t1")).winner ≠ none ∧
    (runDebateRoundMid activeState30 (CallResult.success "hello there")
        (CallResult.success "a reply") "t1" "t2" midDeactivate).messages.length =
      (midDeactivate (geminiHalf activeState30 (CallResult.success "hello there") "t1")).messages.length + 1 := by
  decide

/-- C8 amended: the loop re-checks `isDebating ∧ timeLeft > 0` on
entering each round and again before scheduling the next round, but not
before the second participant's turn within a round: once a round has
begun, Groq's turn is executed and committed unconditionally, even if
deactivation occurred during the inter-turn delay. -/
theorem debateLoop_boundary_rechecks
    (s : DebateState) (r : RoundInput) (rs : List RoundInput) :
    (¬(s.isDebating = true ∧ 0 < s.timeLeft) → debateLoop s (r :: rs) = s) ∧
    ((s.isDebating = true ∧ 0 < s.timeLeft) →
      debateLoop s (r :: rs) =
        (let s' := r.post (runDebateRoundMid s r.gr r.qr r.ts1 r.ts2 r.mid)
         if s'.isDebating = true ∧ 0 < s'.timeLeft then debateLoop s' rs else s')) ∧
    (∀ (s2 : DebateState) (ctx : List DebateMessage) (topic : String)
        (qr : CallResult) (ts : String),
      (groqHalf s2 ctx topic qr ts).messages.length = s2.messages.length + 1) ∧
    (∀ (gr qr : CallResult) (ts1 ts2 : String) (mid : DebateState → DebateState),
      runDebateRoundMid s gr qr ts1 ts2 mid =
        groqHalf (mid (geminiHalf s gr ts1)) (geminiHalf s gr ts1).messages s.topic qr ts2) := by
  refine ⟨fun h => ?_, fun h => ?_, fun s2 ctx topic qr ts => ?_, fun gr qr ts1 ts2 mid => rfl⟩
  · simp only [debateLoop]
    rw [if_neg h]
  · simp only [debateLoop]
    rw [if_pos h]
  · simp only [groqHalf]
    simp

/-- C8 witness: the amended theorem applied to the inactive initial
state, on which the loop is a no-op. -/
theorem debateLoop_boundary_rechecks_witness :
    ¬(initialState.isDebating = true ∧ 0 < initialState.timeLeft) ∧
    debateLoop initialState [failRound] = initialState :=
  ⟨by decide, (debateLoop_boundary_rechecks initialState failRound []).1 (by decide)⟩

/-- C9: along every reachable execution, the winner is null while the
session is active; the only step turning the winner non-null is the
timer-expiry effect at `timeLeft = 0`, which in the same update sets
the session inactive and the winner to `calculateWinner` of the totals
at that instant; and the only step clearing a set winner is a new
`startDebate`. -/
theorem winner_lifecycle :
    (∀ s : DebateState, Reachable s → s.isDebating = true → s.winner = none) ∧
    (∀ s s' : DebateState, Step s s' → s.winner = none → s'.winner ≠ none →
      s.timeLeft = 0 ∧ s'.isDebating = false ∧
      s'.winner = some (calculateWinner s.geminiPoints s.groqPoints)) ∧
    (∀ s s' : DebateState, Step s s' → s.winner ≠ none → s'.winner = none →
      ∃ coin : Bool, s' = startDebate s coin) := by
  refine ⟨?_, ?_, ?_⟩
  · intro s hr
    induction hr with
    | init => intro h; simp [initialState] at h
    | step hr hstep ih =>
      cases hstep with
      | start coin =>
        simp only [startDebate]
        split_ifs with hg
        · exact ih
        · intro _; rfl
      | tick h => exact ih
      | expire h => intro h'; simp [timerExpire] at h'
      | geminiTurn gr ts => exact ih
      | groqTurn ctx topic qr ts => exact ih
      | setTopic t h => exact ih
      | setDuration d h => exact ih
      | resetTime h => exact ih
  · intro s s' hstep h0 hne
    cases hstep with
    | start coin =>
      exfalso
      apply hne
      simp only [startDebate]
      split_ifs with hg
      · exact h0
      · rfl
    | tick h => exact absurd h0 hne
    | expire h => exact ⟨h, rfl, rfl⟩
    | geminiTurn gr ts => exact absurd h0 hne
    | groqTurn ctx topic qr ts => exact absurd h0 hne
    | setTopic t h => exact absurd h0 hne
    | setDuration d h => exact absurd h0 hne
    | resetTime h => exact absurd h0 hne
  · intro s s' hstep hne h0
    cases hstep with
    | start coin => exact ⟨coin, rfl⟩
    | tick h => exact absurd h0 hne
    | expire h => simp [timerExpire] at h0
    | geminiTurn gr ts => exact absurd h0 hne
    | groqTurn ctx topic qr ts => exact absurd h0 hne
    | setTopic t h => exact absurd h0 hne
    | setDuration d h => exact absurd h0 hne
    | resetTime h => exact absurd h0 hne

/-- C9 witness: the theorem applied to the expiry step from an active
session with expired timer and totals 10 : 7. -/
theorem winner_lifecycle_witness :
    (timerExpire expireDemo).isDebating = false ∧
    (timerExpire expireDemo).winner = some Winner.gemini := by
  have h := winner_lifecycle.2.1 expireDemo (timerExpire expireDemo)
    (Step.expire expireDemo rfl) rfl (by simp [timerExpire])
  refine ⟨h.2.1, ?_⟩
  rw [h.2.2]
  rfl

end DebateArena
